import Mathlib

/-!
# UnityAssetAccessor

A shallow embedding of `native~/Shared/src/UnityAssetAccessor.cpp`: the adapter that
implements `CesiumAsync::IAssetAccessor` on top of `UnityEngine.Networking.UnityWebRequest`.

The file talks to two collaborators, the async library (`AsyncSystem`, promises and
futures) and the host (`UnityWebRequest`, `NativeDownloadHandler`, `NativeArray`).
Every call the source makes to either of them is recorded as a `Call`, in program
order, so that the order and the number of the calls can be stated and proved.
What the host answers when the completion callback reads it is an input of the model
(`UnityWebRequest`, `NativeDownloadHandler`).
-/

namespace CesiumForUnityNative

/-! ## Data -/

/-- A request header, `IAssetAccessor::THeader`: a name and a value. -/
abbrev THeader := String × String

/-- The map `CesiumAsync::HttpHeaders` (a `std::map` whose keys compare without case),
kept as the list of its entries. -/
abbrev HttpHeaders := List (String × String)

/-- Member `emplace` of the map: the entry is added unless a key equal to it (case
ignored) is already there. -/
def HttpHeaders.emplace (m : HttpHeaders) (k v : String) : HttpHeaders :=
  if m.any (fun e => e.1.toLower == k.toLower) then m else m ++ [(k, v)]

/-- The enumeration `UnityEngine.Networking.UnityWebRequest.Result`. -/
inductive Result where
  | InProgress
  | Success
  | ConnectionError
  | ProtocolError
  | DataProcessingError
deriving DecidableEq, Repr

/-- What the host request object answers when the completion callback reads it. A
`System.String` may be null, hence `Option String`; `responseCode` is a C# `long`. -/
structure UnityWebRequest where
  isDone : Bool
  result : Result
  error : Option String
  method : Option String
  url : Option String
  responseCode : Int
  GetResponseHeader : String → Option String

/-- The download handler at completion: the bytes the native side has received. -/
structure NativeDownloadHandler where
  getData : List Nat

/-- The conversion `System::String::ToStlString` of the generated interop layer. The
text of a string that is not null is that string. What the conversion gives for a null
string is not decided in this file and is the parameter `nullText`. -/
def ToStlString (nullText : String) : Option String → String
  | some t => t
  | none => nullText

/-- The cast `uint16_t(x)` of a 64-bit signed value. -/
def toUInt16 (x : Int) : Nat := (x % 65536).toNat

/-- The cast `std::int32_t(n)` of a `size_t`. -/
def toInt32 (n : Nat) : Int := Int.bmod (n : Int) (2 ^ 32)

/-- The bound `std::numeric_limits<std::int32_t>::max()`. -/
def int32Max : Nat := 2 ^ 31 - 1

/-- Fields of the class `UnityAssetResponse`. -/
structure UnityAssetResponse where
  statusCode : Nat
  contentType : String
  headers : HttpHeaders
  data : List Nat
deriving DecidableEq, Repr

/-- Fields of the class `UnityAssetRequest`. -/
structure UnityAssetRequest where
  method : String
  url : String
  headers : HttpHeaders
  response : UnityAssetResponse
deriving DecidableEq, Repr

/-! ## Calls to the collaborators -/

/-- One call made by the source, to the async library, to the C runtime or to the host. -/
inductive Call where
  | runInMainThread
  | createResolvedFuture
  | createPromise
  | getFuture
  | resolve (r : UnityAssetRequest)
  | reject (what : String)
  | memcpy (bytes : List Nat)
  | newNativeArray (length : Int)
  | GetUnsafeBufferPointerWithoutChecks
  | Get (url : String)
  | newUnityWebRequest (url verb : String)
  | newNativeDownloadHandler
  | newUploadHandlerRaw
  | downloadHandler
  | SetRequestHeader (name value : String)
  | SendWebRequest
  | add_completed
  | isDone
  | result
  | error
  | method
  | url
  | responseCode
  | getData
  | GetResponseHeader (name : String)
  | Dispose
deriving DecidableEq, Repr

/-- Calls that build and submit the host request: construction of the request and of
its handlers, attachment of the download handler and of the headers, submission, and
registration of the completion callback. -/
def Call.isSubmit : Call → Bool
  | .Get _ => true
  | .newUnityWebRequest _ _ => true
  | .newNativeDownloadHandler => true
  | .newUploadHandlerRaw => true
  | .downloadHandler => true
  | .SetRequestHeader _ _ => true
  | .SendWebRequest => true
  | .add_completed => true
  | _ => false

/-- Calls that read the host request after completion, and the release of the capture
buffer. -/
def Call.isAccessor : Call → Bool
  | .isDone => true
  | .result => true
  | .error => true
  | .method => true
  | .url => true
  | .responseCode => true
  | .getData => true
  | .GetResponseHeader _ => true
  | .Dispose => true
  | _ => false

/-- Calls into the host network API. -/
def Call.isNetwork (c : Call) : Bool := c.isSubmit || c.isAccessor

/-- Calls into the host at all: the network API and the native array allocator. -/
def Call.isHost : Call → Bool
  | .newNativeArray _ => true
  | .GetUnsafeBufferPointerWithoutChecks => true
  | c => c.isNetwork

/-- The release of the capture buffer, `handler.Dispose()`. -/
def Call.isDispose : Call → Bool
  | .Dispose => true
  | _ => false

/-- The promise is settled: `promise.resolve` or `promise.reject`. -/
def Call.isSettle : Call → Bool
  | .resolve _ => true
  | .reject _ => true
  | _ => false

/-- The call is `promise.resolve`. -/
def Call.isResolve : Call → Bool
  | .resolve _ => true
  | _ => false

/-- The call is `promise.reject`. -/
def Call.isReject : Call → Bool
  | .reject _ => true
  | _ => false

/-- The header attached by a `SetRequestHeader` call. -/
def Call.header? : Call → Option THeader
  | .SetRequestHeader n v => some (n, v)
  | _ => none

/-! ## The response and request snapshots -/

/-- Constructor of `UnityAssetResponse`: the members are initialised in the order of
their declaration (`_statusCode`, `_contentType`, `_headers`, `_data`), then the body
reads the `Content-Type` response header. Gives the object and the host calls made. -/
def UnityAssetResponse.ctor (nullText : String) (request : UnityWebRequest)
    (handler : NativeDownloadHandler) : UnityAssetResponse × List Call :=
  let statusCode := toUInt16 request.responseCode
  let data := handler.getData
  let contentTypeHeader := request.GetResponseHeader "Content-Type"
  let calls := [Call.responseCode, Call.getData, Call.GetResponseHeader "Content-Type"]
  match contentTypeHeader with
  | some _ =>
    let contentType := ToStlString nullText contentTypeHeader
    ({ statusCode := statusCode
       contentType := contentType
       headers := HttpHeaders.emplace [] "Content-Type" contentType
       data := data }, calls)
  | none =>
    ({ statusCode := statusCode, contentType := "", headers := [], data := data }, calls)

/-- Constructor of `UnityAssetRequest`: `_method`, `_url`, an empty `_headers`, then the
response. The request headers are not read (the source leaves that as a TODO). -/
def UnityAssetRequest.ctor (nullText : String) (request : UnityWebRequest)
    (handler : NativeDownloadHandler) : UnityAssetRequest × List Call :=
  let method := ToStlString nullText request.method
  let url := ToStlString nullText request.url
  let response := UnityAssetResponse.ctor nullText request handler
  ({ method := method, url := url, headers := [], response := response.1 },
    [Call.method, Call.url] ++ response.2)

/-! ## The two entry points -/

/-- The closure handed to `runInMainThread`: the calls it makes when the main thread
runs it, and the calls of the completion callback it registers, given what the host
answers at completion. -/
structure MainThreadWork where
  work : List Call
  completed : UnityWebRequest → NativeDownloadHandler → List Call

/-- The future an entry point returns. -/
inductive Future where
  | resolved (value : Option UnityAssetRequest)
  | inMainThread (w : MainThreadWork)

/-- What an entry point has done when it returns: the calls made on the calling thread
and the future handed back. -/
structure Returned where
  calls : List Call
  future : Future

namespace UnityAssetAccessor

/-- The `SetRequestHeader` loop over the headers. -/
def setRequestHeaders (headers : List THeader) : List Call :=
  headers.map (fun header => Call.SetRequestHeader header.1 header.2)

/-- Completion callback of `get`. The scope guard runs `handler.Dispose()` when the body
is left. `&&` reads `result` only when `isDone` is true. -/
def getCompleted (nullText : String) (request : UnityWebRequest)
    (handler : NativeDownloadHandler) : List Call :=
  let condition := Call.isDone :: (if request.isDone then [Call.result] else [])
  let body :=
    if request.isDone && request.result != Result.ConnectionError then
      let made := UnityAssetRequest.ctor nullText request handler
      made.2 ++ [Call.resolve made.1]
    else
      [Call.error, Call.reject ("Request failed: " ++ ToStlString nullText request.error)]
  condition ++ body ++ [Call.Dispose]

/-- Member `UnityAssetAccessor::get`. -/
def get (nullText : String) (url : String) (headers : List THeader) : Returned :=
  { calls := [Call.runInMainThread]
    future := Future.inMainThread
      { work :=
          [Call.Get url, Call.newNativeDownloadHandler, Call.downloadHandler]
            ++ setRequestHeaders headers
            ++ [Call.createPromise, Call.getFuture, Call.SendWebRequest, Call.add_completed]
        completed := getCompleted nullText } }

/-- Completion callback of `request`. `&&` reads `error` only when `isDone` is true; the
failure branch reads `error` again for the message. -/
def requestCompleted (nullText : String) (request : UnityWebRequest)
    (handler : NativeDownloadHandler) : List Call :=
  let condition := Call.isDone :: (if request.isDone then [Call.error] else [])
  let body :=
    if request.isDone && request.error == none then
      let made := UnityAssetRequest.ctor nullText request handler
      made.2 ++ [Call.resolve made.1]
    else
      [Call.error, Call.reject ("Request failed: " ++ ToStlString nullText request.error)]
  condition ++ body ++ [Call.Dispose]

/-- Member `UnityAssetAccessor::request`. The payload is a span of bytes; its size is a
`size_t`. -/
def request (nullText : String) (verb url : String) (headers : List THeader)
    (contentPayload : List Nat) : Returned :=
  if contentPayload.length > int32Max then
    { calls := [Call.createResolvedFuture], future := Future.resolved none }
  else
    { calls :=
        [Call.newNativeArray (toInt32 contentPayload.length),
          Call.GetUnsafeBufferPointerWithoutChecks,
          Call.memcpy contentPayload,
          Call.runInMainThread]
      future := Future.inMainThread
        { work :=
            [Call.newNativeDownloadHandler, Call.newUploadHandlerRaw,
              Call.newUnityWebRequest url verb]
              ++ setRequestHeaders headers
              ++ [Call.createPromise, Call.getFuture, Call.SendWebRequest, Call.add_completed]
          completed := requestCompleted nullText } }

/-- Member `UnityAssetAccessor::tick`: no call at all. -/
def tick : List Call := []

end UnityAssetAccessor

/-! ## Running an operation -/

/-- Where a call is made: in the entry point itself on the calling thread, in the
closure run by `runInMainThread`, or in the completion callback that closure registers. -/
inductive Ctx where
  | caller
  | mainThread
  | completion
deriving DecidableEq, Repr

/-- How a future ends. -/
inductive Outcome where
  | resolved (value : Option UnityAssetRequest)
  | rejected (what : String)
deriving DecidableEq, Repr

/-- The first settlement of the promise among the calls of a callback. -/
def settled : List Call → Option Outcome
  | [] => none
  | Call.resolve r :: _ => some (Outcome.resolved (some r))
  | Call.reject what :: _ => some (Outcome.rejected what)
  | _ :: rest => settled rest

/-- The calls behind a future once the main thread has run the closure and the host has
invoked the completion callback once. -/
def Future.run (rq : UnityWebRequest) (h : NativeDownloadHandler) : Future → List (Ctx × Call)
  | Future.resolved _ => []
  | Future.inMainThread w =>
    w.work.map (fun c => (Ctx.mainThread, c))
      ++ (w.completed rq h).map (fun c => (Ctx.completion, c))

/-- How the returned future ends, under the same run. -/
def Future.outcome (rq : UnityWebRequest) (h : NativeDownloadHandler) : Future → Option Outcome
  | Future.resolved v => some (Outcome.resolved v)
  | Future.inMainThread w => settled (w.completed rq h)

/-- All calls of one operation, each with the place it is made. -/
def Returned.run (r : Returned) (rq : UnityWebRequest) (h : NativeDownloadHandler) :
    List (Ctx × Call) :=
  r.calls.map (fun c => (Ctx.caller, c)) ++ r.future.run rq h

/-- The work the future schedules on the main thread, empty when there is none. -/
def Future.work : Future → List Call
  | Future.resolved _ => []
  | Future.inMainThread w => w.work


/-- The calls `work` attach exactly the headers `headers`: one `SetRequestHeader` for
each element, in the order of the list, and all of them before the one `SendWebRequest`. -/
def AttachesInOrder (headers : List THeader) (work : List Call) : Prop :=
  ∃ pre mid post,
    work = pre ++ headers.map (fun x => Call.SetRequestHeader x.1 x.2) ++ mid
        ++ Call.SendWebRequest :: post
      ∧ (∀ c ∈ pre ++ mid ++ post, c.header? = none)
      ∧ Call.SendWebRequest ∉ pre ++ mid ++ post

/-- A completed exchange: status 200 with a JSON content type. -/
def okRequest : UnityWebRequest :=
  { isDone := true
    result := Result.Success
    error := none
    method := some "GET"
    url := some "http://h/a"
    responseCode := 200
    GetResponseHeader := fun name => if name = "Content-Type" then some "application/json" else none }

/-- The seven bytes of the JSON text with one member `a` equal to 1. -/
def okHandler : NativeDownloadHandler :=
  { getData := [123, 34, 97, 34, 58, 49, 125] }

/-- A completed exchange that failed to connect. -/
def refusedRequest : UnityWebRequest :=
  { isDone := true
    result := Result.ConnectionError
    error := some "Cannot connect to destination host"
    method := some "POST"
    url := some "http://h/a"
    responseCode := 0
    GetResponseHeader := fun _ => none }

/-- A completed exchange answered with status 404: the host reports a protocol error,
with its error text. -/
def notFoundRequest : UnityWebRequest :=
  { isDone := true
    result := Result.ProtocolError
    error := some "HTTP/1.1 404 Not Found"
    method := some "GET"
    url := some "http://h/a"
    responseCode := 404
    GetResponseHeader := fun _ => none }

/-- Nothing was received. -/
def emptyHandler : NativeDownloadHandler :=
  { getData := [] }

/-! ## Shared facts -/

open UnityAssetAccessor

theorem responseCtor_calls (nullText : String) (rq : UnityWebRequest)
    (h : NativeDownloadHandler) :
    (UnityAssetResponse.ctor nullText rq h).2
      = [Call.responseCode, Call.getData, Call.GetResponseHeader "Content-Type"] := by
  unfold UnityAssetResponse.ctor
  cases rq.GetResponseHeader "Content-Type" <;> rfl

theorem requestCtor_calls (nullText : String) (rq : UnityWebRequest)
    (h : NativeDownloadHandler) :
    (UnityAssetRequest.ctor nullText rq h).2
      = [Call.method, Call.url, Call.responseCode, Call.getData,
          Call.GetResponseHeader "Content-Type"] := by
  unfold UnityAssetRequest.ctor
  simp [responseCtor_calls]

theorem toInt32_of_le (n : Nat) (hn : n ≤ int32Max) : toInt32 n = (n : Int) := by
  unfold int32Max at hn
  have hn2 : n ≤ 2147483647 := by omega
  unfold toInt32 Int.bmod
  have h1 : ((n : Int) % ((2 ^ 32 : Nat) : Int)) = n := by
    apply Int.emod_eq_of_lt
    · omega
    · norm_num
      omega
  simp only [h1]
  have h2 : (n : Int) < (((2 ^ 32 : Nat) : Int) + 1) / 2 := by
    norm_num
    omega
  rw [if_pos h2]

/-- The calls of the success branch of `get`, written out. -/
theorem getCompleted_success (nullText : String) (rq : UnityWebRequest)
    (h : NativeDownloadHandler) (hd : rq.isDone = true)
    (hr : rq.result ≠ Result.ConnectionError) :
    getCompleted nullText rq h
      = [Call.isDone, Call.result, Call.method, Call.url, Call.responseCode, Call.getData,
          Call.GetResponseHeader "Content-Type",
          Call.resolve (UnityAssetRequest.ctor nullText rq h).1, Call.Dispose] := by
  simp [getCompleted, hd, hr, requestCtor_calls]

/-- The calls of the failure branch of `get`, written out. -/
theorem getCompleted_failure (nullText : String) (rq : UnityWebRequest)
    (h : NativeDownloadHandler)
    (hf : ¬ (rq.isDone = true ∧ rq.result ≠ Result.ConnectionError)) :
    getCompleted nullText rq h
      = Call.isDone :: ((if rq.isDone then [Call.result] else [])
          ++ [Call.error,
              Call.reject ("Request failed: " ++ ToStlString nullText rq.error),
              Call.Dispose]) := by
  have hc : (rq.isDone && rq.result != Result.ConnectionError) = false := by
    cases hd : rq.isDone <;> simp_all
  simp [getCompleted, hc]

/-- The calls of the success branch of `request`, written out. -/
theorem requestCompleted_success (nullText : String) (rq : UnityWebRequest)
    (h : NativeDownloadHandler) (hd : rq.isDone = true) (he : rq.error = none) :
    requestCompleted nullText rq h
      = [Call.isDone, Call.error, Call.method, Call.url, Call.responseCode, Call.getData,
          Call.GetResponseHeader "Content-Type",
          Call.resolve (UnityAssetRequest.ctor nullText rq h).1, Call.Dispose] := by
  simp [requestCompleted, hd, he, requestCtor_calls]

/-- The calls of the failure branch of `request`, written out. -/
theorem requestCompleted_failure (nullText : String) (rq : UnityWebRequest)
    (h : NativeDownloadHandler) (hf : ¬ (rq.isDone = true ∧ rq.error = none)) :
    requestCompleted nullText rq h
      = Call.isDone :: ((if rq.isDone then [Call.error] else [])
          ++ [Call.error,
              Call.reject ("Request failed: " ++ ToStlString nullText rq.error),
              Call.Dispose]) := by
  have hc : (rq.isDone && rq.error == none) = false := by
    cases hd : rq.isDone <;> simp_all
  simp [requestCompleted, hc]

theorem settled_getCompleted (nullText : String) (rq : UnityWebRequest)
    (h : NativeDownloadHandler) :
    settled (getCompleted nullText rq h)
      = if rq.isDone = true ∧ rq.result ≠ Result.ConnectionError then
          some (Outcome.resolved (some (UnityAssetRequest.ctor nullText rq h).1))
        else
          some (Outcome.rejected ("Request failed: " ++ ToStlString nullText rq.error)) := by
  by_cases hc : rq.isDone = true ∧ rq.result ≠ Result.ConnectionError
  · rw [getCompleted_success nullText rq h hc.1 hc.2, if_pos hc]
    simp [settled]
  · rw [getCompleted_failure nullText rq h hc, if_neg hc]
    cases rq.isDone <;> simp [settled]

theorem settled_requestCompleted (nullText : String) (rq : UnityWebRequest)
    (h : NativeDownloadHandler) :
    settled (requestCompleted nullText rq h)
      = if rq.isDone = true ∧ rq.error = none then
          some (Outcome.resolved (some (UnityAssetRequest.ctor nullText rq h).1))
        else
          some (Outcome.rejected ("Request failed: " ++ ToStlString nullText rq.error)) := by
  by_cases hc : rq.isDone = true ∧ rq.error = none
  · rw [requestCompleted_success nullText rq h hc.1 hc.2, if_pos hc]
    simp [settled]
  · rw [requestCompleted_failure nullText rq h hc, if_neg hc]
    cases rq.isDone <;> simp [settled]

theorem get_outcome_eq (nullText url : String) (headers : List THeader)
    (rq : UnityWebRequest) (h : NativeDownloadHandler) :
    (get nullText url headers).future.outcome rq h = settled (getCompleted nullText rq h) :=
  rfl

theorem request_outcome_eq (nullText verb url : String) (headers : List THeader)
    (contentPayload : List Nat) (hle : contentPayload.length ≤ 2 ^ 31 - 1)
    (rq : UnityWebRequest) (h : NativeDownloadHandler) :
    (request nullText verb url headers contentPayload).future.outcome rq h
      = settled (requestCompleted nullText rq h) := by
  have hnot : ¬ contentPayload.length > int32Max := by
    unfold int32Max
    omega
  simp [request, hnot, Future.outcome]

/-- C1: a payload of at most 2^31-1 bytes (the bound included) makes `request` allocate
the upload buffer with the size of the payload, copy the payload and hand the
construction and submission of the request to `runInMainThread`; a larger payload makes
it return an already resolved future, and the only call of the whole operation is
`createResolvedFuture`: no host call and no `runInMainThread`. -/
theorem request_payload_bound (nullText verb url : String) (headers : List THeader)
    (contentPayload : List Nat) :
    (contentPayload.length ≤ 2 ^ 31 - 1 →
      (request nullText verb url headers contentPayload).calls
          = [Call.newNativeArray (contentPayload.length : Int),
              Call.GetUnsafeBufferPointerWithoutChecks, Call.memcpy contentPayload,
              Call.runInMainThread]
        ∧ (∀ v, (request nullText verb url headers contentPayload).future ≠ Future.resolved v)
        ∧ ∀ rq h,
            (Ctx.mainThread, Call.newUnityWebRequest url verb)
                ∈ (request nullText verb url headers contentPayload).run rq h
              ∧ (Ctx.mainThread, Call.SendWebRequest)
                ∈ (request nullText verb url headers contentPayload).run rq h
              ∧ (Ctx.mainThread, Call.add_completed)
                ∈ (request nullText verb url headers contentPayload).run rq h) ∧
    (2 ^ 31 - 1 < contentPayload.length →
      (request nullText verb url headers contentPayload).future = Future.resolved none
        ∧ ∀ rq h,
            (request nullText verb url headers contentPayload).run rq h
                = [(Ctx.caller, Call.createResolvedFuture)]
              ∧ ∀ e ∈ (request nullText verb url headers contentPayload).run rq h,
                  e.2.isHost = false ∧ e.2 ≠ Call.runInMainThread) := by
  constructor
  · intro hle
    have hnot : ¬ contentPayload.length > int32Max := by
      unfold int32Max
      omega
    have hcast : toInt32 contentPayload.length = (contentPayload.length : Int) :=
      toInt32_of_le _ (by unfold int32Max; omega)
    refine ⟨?_, ?_, ?_⟩
    · simp [request, hnot, hcast]
    · intro v
      simp [request, hnot]
    · intro rq h
      simp [request, hnot, Returned.run, Future.run]
  · intro hgt
    have hbig : contentPayload.length > int32Max := by
      unfold int32Max
      omega
    refine ⟨by simp [request, hbig], ?_⟩
    intro rq h
    have hrun : (request nullText verb url headers contentPayload).run rq h
        = [(Ctx.caller, Call.createResolvedFuture)] := by
      simp [request, hbig, Returned.run, Future.run]
    refine ⟨hrun, ?_⟩
    rw [hrun]
    intro e he
    simp only [List.mem_singleton] at he
    subst he
    exact ⟨rfl, by simp⟩

/-- C1 at the bound and one byte above it: 2^31-1 bytes are scheduled, 2^31 bytes are
answered at once. -/
theorem request_payload_bound_witness :
    ((request "" "POST" "http://h/a" [] (List.replicate (2 ^ 31 - 1) 0)).calls
        = [Call.newNativeArray ((List.replicate (2 ^ 31 - 1) 0).length : Int),
            Call.GetUnsafeBufferPointerWithoutChecks,
            Call.memcpy (List.replicate (2 ^ 31 - 1) 0), Call.runInMainThread])
      ∧ (request "" "POST" "http://h/a" [] (List.replicate (2 ^ 31) 0)).future
        = Future.resolved none :=
  ⟨((request_payload_bound "" "POST" "http://h/a" [] (List.replicate (2 ^ 31 - 1) 0)).1
      (by rw [List.length_replicate])).1,
    ((request_payload_bound "" "POST" "http://h/a" [] (List.replicate (2 ^ 31) 0)).2
      (by rw [List.length_replicate]; norm_num)).1⟩

/-! ## Release of the capture buffer -/

/-- C2, as stated, fails: on the success branch of `get` and on the failure branch of
`request` the release `Dispose` does not come before the settlement of the promise. -/
theorem dispose_before_settle_fails :
    ¬ (List.findIdx Call.isDispose (getCompleted "" okRequest okHandler)
        < List.findIdx Call.isSettle (getCompleted "" okRequest okHandler))
    ∧ ¬ (List.findIdx Call.isDispose (requestCompleted "" refusedRequest emptyHandler)
        < List.findIdx Call.isSettle (requestCompleted "" refusedRequest emptyHandler)) := by
  constructor
  · rw [getCompleted_success "" okRequest okHandler rfl (by decide)]
    decide
  · rw [requestCompleted_failure "" refusedRequest emptyHandler (by simp [refusedRequest])]
    simp [refusedRequest, List.findIdx_cons, Call.isDispose, Call.isSettle]

/-- C2, amended: in the completion callback of both entry points, on the success branch
and on the failure branch, `Dispose` is called exactly once, it is the last call of the
callback, and the promise is resolved or rejected before it. -/
theorem dispose_once_after_settle (nullText : String) (rq : UnityWebRequest)
    (h : NativeDownloadHandler) :
    ((getCompleted nullText rq h).countP Call.isDispose = 1
      ∧ (getCompleted nullText rq h).getLast? = some Call.Dispose
      ∧ List.findIdx Call.isSettle (getCompleted nullText rq h)
          < List.findIdx Call.isDispose (getCompleted nullText rq h))
    ∧ ((requestCompleted nullText rq h).countP Call.isDispose = 1
      ∧ (requestCompleted nullText rq h).getLast? = some Call.Dispose
      ∧ List.findIdx Call.isSettle (requestCompleted nullText rq h)
          < List.findIdx Call.isDispose (requestCompleted nullText rq h)) := by
  constructor
  · by_cases hc : rq.isDone = true ∧ rq.result ≠ Result.ConnectionError
    · rw [getCompleted_success nullText rq h hc.1 hc.2]
      simp [List.findIdx_cons, Call.isDispose, Call.isSettle]
    · rw [getCompleted_failure nullText rq h hc]
      cases rq.isDone <;> simp [List.findIdx_cons, Call.isDispose, Call.isSettle]
  · by_cases hc : rq.isDone = true ∧ rq.error = none
    · rw [requestCompleted_success nullText rq h hc.1 hc.2]
      simp [List.findIdx_cons, Call.isDispose, Call.isSettle]
    · rw [requestCompleted_failure nullText rq h hc]
      cases rq.isDone <;> simp [List.findIdx_cons, Call.isDispose, Call.isSettle]

/-! ## One settlement per operation -/

/-- C3: whatever the host answers, one run of the completion callback of either entry
point calls `promise.resolve` and `promise.reject` exactly once in total: never both,
never neither. -/
theorem settle_exactly_once (nullText : String) (rq : UnityWebRequest)
    (h : NativeDownloadHandler) :
    ((getCompleted nullText rq h).countP Call.isResolve
        + (getCompleted nullText rq h).countP Call.isReject = 1)
    ∧ ((requestCompleted nullText rq h).countP Call.isResolve
        + (requestCompleted nullText rq h).countP Call.isReject = 1) := by
  constructor
  · by_cases hc : rq.isDone = true ∧ rq.result ≠ Result.ConnectionError
    · rw [getCompleted_success nullText rq h hc.1 hc.2]
      simp [Call.isResolve, Call.isReject]
    · rw [getCompleted_failure nullText rq h hc]
      cases rq.isDone <;> simp [Call.isResolve, Call.isReject]
  · by_cases hc : rq.isDone = true ∧ rq.error = none
    · rw [requestCompleted_success nullText rq h hc.1 hc.2]
      simp [Call.isResolve, Call.isReject]
    · rw [requestCompleted_failure nullText rq h hc]
      cases rq.isDone <;> simp [Call.isResolve, Call.isReject]

/-! ## What decides success -/

/-- C4: the completion callback of `get` resolves the promise with the success envelope
exactly when the host reports `isDone` and a result other than `ConnectionError` (HTTP
error statuses included); otherwise it rejects with "Request failed: " followed by the
error text of the host. With result `ConnectionError` the outcome is a rejection whose
message ends with the error text the host gave. -/
theorem get_outcome (nullText url : String) (headers : List THeader)
    (rq : UnityWebRequest) (h : NativeDownloadHandler) :
    ((rq.isDone = true ∧ rq.result ≠ Result.ConnectionError)
        ↔ ∃ r, (get nullText url headers).future.outcome rq h
            = some (Outcome.resolved (some r)))
    ∧ ((rq.isDone = true ∧ rq.result ≠ Result.ConnectionError) →
        (get nullText url headers).future.outcome rq h
          = some (Outcome.resolved (some (UnityAssetRequest.ctor nullText rq h).1)))
    ∧ (¬ (rq.isDone = true ∧ rq.result ≠ Result.ConnectionError) →
        (get nullText url headers).future.outcome rq h
          = some (Outcome.rejected ("Request failed: " ++ ToStlString nullText rq.error)))
    ∧ (rq.result = Result.ConnectionError → ∀ text, rq.error = some text →
        (get nullText url headers).future.outcome rq h
          = some (Outcome.rejected ("Request failed: " ++ text))) := by
  rw [get_outcome_eq, settled_getCompleted]
  refine ⟨?_, ?_, ?_, ?_⟩
  · constructor
    · intro hc
      exact ⟨_, by rw [if_pos hc]⟩
    · rintro ⟨r, hr⟩
      by_contra hc
      rw [if_neg hc] at hr
      simp at hr
  · intro hc
    rw [if_pos hc]
  · intro hc
    rw [if_neg hc]
  · intro hr text ht
    have hc : ¬ (rq.isDone = true ∧ rq.result ≠ Result.ConnectionError) := fun hc => hc.2 hr
    rw [if_neg hc, ht]
    rfl

/-- C4 at two answers of the host: a completed 404 is a success carrying status 404, a
connection error is a rejection carrying the text of the host. -/
theorem get_outcome_witness :
    (get "" "http://h/a" []).future.outcome notFoundRequest emptyHandler
        = some (Outcome.resolved (some (UnityAssetRequest.ctor "" notFoundRequest emptyHandler).1))
      ∧ (UnityAssetRequest.ctor "" notFoundRequest emptyHandler).1.response.statusCode = 404
      ∧ (get "" "http://h/a" []).future.outcome refusedRequest emptyHandler
        = some (Outcome.rejected ("Request failed: " ++ "Cannot connect to destination host")) :=
  ⟨(get_outcome "" "http://h/a" [] notFoundRequest emptyHandler).2.1 ⟨rfl, by decide⟩,
    by decide,
    (get_outcome "" "http://h/a" [] refusedRequest emptyHandler).2.2.2 rfl _ rfl⟩

/-- C5: for a payload within the bound, the completion callback of `request` resolves
the promise with the success envelope exactly when the host reports `isDone` and a null
error; when the error is not null the outcome is a rejection, also when `isDone` is true
and whatever the result code and the status code are. -/
theorem request_outcome (nullText verb url : String) (headers : List THeader)
    (contentPayload : List Nat) (hle : contentPayload.length ≤ 2 ^ 31 - 1)
    (rq : UnityWebRequest) (h : NativeDownloadHandler) :
    ((rq.isDone = true ∧ rq.error = none)
        ↔ ∃ r, (request nullText verb url headers contentPayload).future.outcome rq h
            = some (Outcome.resolved (some r)))
    ∧ ((rq.isDone = true ∧ rq.error = none) →
        (request nullText verb url headers contentPayload).future.outcome rq h
          = some (Outcome.resolved (some (UnityAssetRequest.ctor nullText rq h).1)))
    ∧ (∀ text, rq.error = some text →
        (request nullText verb url headers contentPayload).future.outcome rq h
          = some (Outcome.rejected ("Request failed: " ++ text))) := by
  rw [request_outcome_eq nullText verb url headers contentPayload hle, settled_requestCompleted]
  refine ⟨?_, ?_, ?_⟩
  · constructor
    · intro hc
      exact ⟨_, by rw [if_pos hc]⟩
    · rintro ⟨r, hr⟩
      by_contra hc
      rw [if_neg hc] at hr
      simp at hr
  · intro hc
    rw [if_pos hc]
  · intro text ht
    have hc : ¬ (rq.isDone = true ∧ rq.error = none) := by
      rw [ht]
      simp
    rw [if_neg hc, ht]
    rfl

/-- C5 at a completed exchange (status 404, `isDone` true) whose error is not null: the
outcome is a rejection. -/
theorem request_outcome_witness :
    [1, 2, 3].length ≤ 2 ^ 31 - 1
      ∧ notFoundRequest.isDone = true
      ∧ (request "" "POST" "http://h/a" [] [1, 2, 3]).future.outcome notFoundRequest emptyHandler
        = some (Outcome.rejected ("Request failed: " ++ "HTTP/1.1 404 Not Found")) :=
  ⟨by decide, rfl,
    (request_outcome "" "POST" "http://h/a" [] [1, 2, 3] (by decide)
      notFoundRequest emptyHandler).2.2 _ rfl⟩

/-! ## The success envelope -/

/-- C6: for a completed response with status code between 0 and 65535, the response
snapshot has that status code and the received bytes; with a `Content-Type` header of
value `c` its content type is `c` and its header map is the one entry `Content-Type`
to `c`; without the header the content type is empty and the header map is empty. The
request snapshot carries this response. -/
theorem response_snapshot (nullText : String) (rq : UnityWebRequest)
    (h : NativeDownloadHandler) (h0 : 0 ≤ rq.responseCode) (h1 : rq.responseCode ≤ 65535) :
    ((UnityAssetResponse.ctor nullText rq h).1.statusCode : Int) = rq.responseCode
    ∧ (UnityAssetResponse.ctor nullText rq h).1.data = h.getData
    ∧ (∀ c, rq.GetResponseHeader "Content-Type" = some c →
        (UnityAssetResponse.ctor nullText rq h).1.contentType = c
          ∧ (UnityAssetResponse.ctor nullText rq h).1.headers = [("Content-Type", c)])
    ∧ (rq.GetResponseHeader "Content-Type" = none →
        (UnityAssetResponse.ctor nullText rq h).1.contentType = ""
          ∧ (UnityAssetResponse.ctor nullText rq h).1.headers = [])
    ∧ (UnityAssetRequest.ctor nullText rq h).1.response
        = (UnityAssetResponse.ctor nullText rq h).1 := by
  have hs : ((toUInt16 rq.responseCode : Nat) : Int) = rq.responseCode := by
    unfold toUInt16
    have hm : rq.responseCode % 65536 = rq.responseCode :=
      Int.emod_eq_of_lt h0 (by omega)
    rw [hm]
    exact Int.toNat_of_nonneg h0
  refine ⟨?_, ?_, ?_, ?_, rfl⟩
  · unfold UnityAssetResponse.ctor
    cases rq.GetResponseHeader "Content-Type" <;> exact hs
  · unfold UnityAssetResponse.ctor
    cases rq.GetResponseHeader "Content-Type" <;> rfl
  · intro c hc
    unfold UnityAssetResponse.ctor
    rw [hc]
    simp [ToStlString, HttpHeaders.emplace]
  · intro hc
    unfold UnityAssetResponse.ctor
    rw [hc]
    exact ⟨rfl, rfl⟩

/-- C6 at status 200, `Content-Type: application/json` and the seven bytes of the JSON
text with member `a` equal to 1. -/
theorem response_snapshot_witness :
    ((UnityAssetResponse.ctor "" okRequest okHandler).1.statusCode : Int) = 200
      ∧ (UnityAssetResponse.ctor "" okRequest okHandler).1.data = [123, 34, 97, 34, 58, 49, 125]
      ∧ (UnityAssetResponse.ctor "" okRequest okHandler).1.contentType = "application/json"
      ∧ (UnityAssetResponse.ctor "" okRequest okHandler).1.headers
        = [("Content-Type", "application/json")] :=
  have w := response_snapshot "" okRequest okHandler (by decide) (by decide)
  ⟨w.1, w.2.1, (w.2.2.1 "application/json" (by simp [okRequest])).1,
    (w.2.2.1 "application/json" (by simp [okRequest])).2⟩

/-! ## How failures are delivered -/

/-- C7, as stated, fails: for a payload of 2^31 bytes the future returned by `request`
is not rejected; it is resolved, with a null request. -/
theorem too_large_is_not_rejected :
    (¬ ∃ what,
        (request "" "POST" "http://h/a" [] (List.replicate (2 ^ 31) 0)).future.outcome
            okRequest okHandler = some (Outcome.rejected what))
      ∧ (request "" "POST" "http://h/a" [] (List.replicate (2 ^ 31) 0)).future.outcome
          okRequest okHandler = some (Outcome.resolved none) := by
  have hbig : (List.replicate (2 ^ 31) 0).length > int32Max := by
    rw [List.length_replicate]
    unfold int32Max
    norm_num
  have hout : (request "" "POST" "http://h/a" [] (List.replicate (2 ^ 31) 0)).future.outcome
      okRequest okHandler = some (Outcome.resolved none) := by
    unfold request
    rw [if_pos hbig]
    rfl
  refine ⟨?_, hout⟩
  rintro ⟨what, hw⟩
  rw [hout] at hw
  simp at hw

/-- C7, amended: a failure of the completion callback is delivered as a rejected future,
on `get` (not done, or a connection error) and on `request` with a payload within the
bound (not done, or an error that is not null), with the message "Request failed: "
followed by the error text; a payload above the bound is delivered as a future already
resolved with a null request. -/
theorem failures_delivered (nullText verb url : String) (headers : List THeader)
    (contentPayload : List Nat) (rq : UnityWebRequest) (h : NativeDownloadHandler) :
    (¬ (rq.isDone = true ∧ rq.result ≠ Result.ConnectionError) →
        (get nullText url headers).future.outcome rq h
          = some (Outcome.rejected ("Request failed: " ++ ToStlString nullText rq.error)))
    ∧ (contentPayload.length ≤ 2 ^ 31 - 1 → ¬ (rq.isDone = true ∧ rq.error = none) →
        (request nullText verb url headers contentPayload).future.outcome rq h
          = some (Outcome.rejected ("Request failed: " ++ ToStlString nullText rq.error)))
    ∧ (2 ^ 31 - 1 < contentPayload.length →
        (request nullText verb url headers contentPayload).future.outcome rq h
          = some (Outcome.resolved none)) := by
  refine ⟨?_, ?_, ?_⟩
  · intro hc
    rw [get_outcome_eq, settled_getCompleted, if_neg hc]
  · intro hle hc
    rw [request_outcome_eq nullText verb url headers contentPayload hle,
      settled_requestCompleted, if_neg hc]
  · intro hgt
    have hbig : contentPayload.length > int32Max := by
      unfold int32Max
      omega
    unfold request
    rw [if_pos hbig]
    rfl

/-- C7, amended, at a connection error on both entry points and at a payload of 2^31
bytes. -/
theorem failures_delivered_witness :
    (get "" "http://h/a" []).future.outcome refusedRequest emptyHandler
        = some (Outcome.rejected
            ("Request failed: " ++ ToStlString "" refusedRequest.error))
      ∧ (request "" "POST" "http://h/a" [] [1, 2, 3]).future.outcome refusedRequest emptyHandler
        = some (Outcome.rejected
            ("Request failed: " ++ ToStlString "" refusedRequest.error))
      ∧ (request "" "POST" "http://h/a" [] (List.replicate (2 ^ 31) 0)).future.outcome
          refusedRequest emptyHandler = some (Outcome.resolved none) :=
  ⟨(failures_delivered "" "POST" "http://h/a" [] [1, 2, 3] refusedRequest emptyHandler).1
      (by simp [refusedRequest]),
    (failures_delivered "" "POST" "http://h/a" [] [1, 2, 3] refusedRequest emptyHandler).2.1
      (by decide) (by simp [refusedRequest]),
    (failures_delivered "" "POST" "http://h/a" [] (List.replicate (2 ^ 31) 0)
        refusedRequest emptyHandler).2.2
      (by rw [List.length_replicate]; norm_num)⟩

/-! ## Attachment of the headers -/

/-- C8: for every header list, duplicates included, the work that `get` schedules on the
main thread, and the work that `request` schedules (it schedules work when the payload
is within the bound), calls `SetRequestHeader` once for each element, with its name and
value, in the order of the list, and all of these calls come before `SendWebRequest`. -/
theorem headers_attached_in_order (nullText verb url : String) (headers : List THeader)
    (contentPayload : List Nat) :
    (AttachesInOrder headers (get nullText url headers).future.work
      ∧ (get nullText url headers).future.work.filterMap Call.header? = headers)
    ∧ (contentPayload.length ≤ 2 ^ 31 - 1 →
      AttachesInOrder headers (request nullText verb url headers contentPayload).future.work
      ∧ (request nullText verb url headers contentPayload).future.work.filterMap Call.header?
          = headers) := by
  have hmap : List.filterMap Call.header?
      (headers.map (fun x => Call.SetRequestHeader x.1 x.2)) = headers := by
    induction headers with
    | nil => rfl
    | cons a t ih => simp [Call.header?, ih]
  refine ⟨⟨?_, ?_⟩, ?_⟩
  · refine ⟨[Call.Get url, Call.newNativeDownloadHandler, Call.downloadHandler],
      [Call.createPromise, Call.getFuture], [Call.add_completed], ?_, ?_, ?_⟩
    · simp [UnityAssetAccessor.get, Future.work, setRequestHeaders]
    · intro c hc
      simp at hc
      rcases hc with rfl | rfl | rfl | rfl | rfl | rfl <;> rfl
    · simp
  · simp [UnityAssetAccessor.get, Future.work, setRequestHeaders, List.filterMap_append, hmap,
      Call.header?]
  · intro hle
    have hnot : ¬ contentPayload.length > int32Max := by
      unfold int32Max
      omega
    refine ⟨?_, ?_⟩
    · refine ⟨[Call.newNativeDownloadHandler, Call.newUploadHandlerRaw,
          Call.newUnityWebRequest url verb],
        [Call.createPromise, Call.getFuture], [Call.add_completed], ?_, ?_, ?_⟩
      · simp [request, hnot, Future.work, setRequestHeaders]
      · intro c hc
        simp at hc
        rcases hc with rfl | rfl | rfl | rfl | rfl | rfl <;> rfl
      · simp
    · simp [request, hnot, Future.work, setRequestHeaders, List.filterMap_append, hmap,
        Call.header?]

/-- C8 at the headers `X-A: 1` then `X-B: 2`: the work of `request` is written out, the
two headers are attached in that order before the submission. -/
theorem headers_attached_in_order_witness :
    [1, 2, 3].length ≤ 2 ^ 31 - 1
      ∧ (request "" "POST" "http://h/a" [("X-A", "1"), ("X-B", "2")] [1, 2, 3]).future.work
          = [Call.newNativeDownloadHandler, Call.newUploadHandlerRaw,
              Call.newUnityWebRequest "http://h/a" "POST",
              Call.SetRequestHeader "X-A" "1", Call.SetRequestHeader "X-B" "2",
              Call.createPromise, Call.getFuture, Call.SendWebRequest, Call.add_completed]
      ∧ (request "" "POST" "http://h/a" [("X-A", "1"), ("X-B", "2")] [1, 2, 3]).future.work.filterMap
          Call.header? = [("X-A", "1"), ("X-B", "2")]
      ∧ (get "" "http://h/a" [("X-A", "1"), ("X-B", "2")]).future.work.filterMap
          Call.header? = [("X-A", "1"), ("X-B", "2")] :=
  ⟨by decide, by decide,
    ((headers_attached_in_order "" "POST" "http://h/a" [("X-A", "1"), ("X-B", "2")] [1, 2, 3]).2
      (by decide)).2,
    (headers_attached_in_order "" "POST" "http://h/a" [("X-A", "1"), ("X-B", "2")] [1, 2, 3]).1.2⟩

/-! ## The request snapshot -/

/-- C9 on the code: the snapshot resolved by a successful `get` (and by a successful
`request`) has the method and the URL that the host request reports at completion, and
an empty header map, whatever headers were passed in. -/
theorem request_snapshot_headers_empty (nullText url : String) (headers : List THeader)
    (rq : UnityWebRequest) (h : NativeDownloadHandler) (hd : rq.isDone = true)
    (hr : rq.result ≠ Result.ConnectionError) :
    ∃ r, (get nullText url headers).future.outcome rq h = some (Outcome.resolved (some r))
      ∧ r.method = ToStlString nullText rq.method
      ∧ r.url = ToStlString nullText rq.url
      ∧ r.headers = [] := by
  refine ⟨(UnityAssetRequest.ctor nullText rq h).1, ?_, rfl, rfl, rfl⟩
  rw [get_outcome_eq, settled_getCompleted, if_pos ⟨hd, hr⟩]

/-- C9 on the code, at a `get` with the header `X-A: 1` that completes with status 200:
the header passed in is not among the headers of the resolved snapshot. -/
theorem request_snapshot_headers_empty_witness :
    ∃ r, (get "" "http://h/a" [("X-A", "1")]).future.outcome okRequest okHandler
        = some (Outcome.resolved (some r))
      ∧ r.method = "GET" ∧ r.url = "http://h/a"
      ∧ ("X-A", "1") ∉ r.headers := by
  obtain ⟨r, ho, hm, hu, hh⟩ :=
    request_snapshot_headers_empty "" "http://h/a" [("X-A", "1")] okRequest okHandler rfl
      (by decide)
  refine ⟨r, ho, hm, hu, ?_⟩
  rw [hh]
  simp

/-! ## Where the host is called -/

end CesiumForUnityNative
